import Mathlib

/-!
# GeminiAutoGen — verification of the task-execution core

Shallow embedding of the task-execution state machine of the GeminiAutoGen
browser extension: target-filename derivation and queue filtering (side
panel, `part_000`), the download-detection/rename/validate pipeline of the
background file service (`part_001`), the orchestrator retry policy
(`part_000`), the content-script outcome reporting (`part_002`), and the
settings normalization helpers.

Strings are modelled as `List Char`; file bytes as `List Nat`; SHA-256 as an
abstract parameter `hash : List Nat → List Nat`; wall-clock time in
milliseconds as `Nat`, with each poll iteration idealized to take exactly one
poll interval (the scan itself takes zero time).  `Char.toLower` models
JavaScript `toLowerCase` (they agree on the ASCII characters these functions
are applied to).
-/

namespace GeminiAutoGen

/-! ## Target filename derivation

Source: `part_000` lines 410–421 / `part_002` lines 1018–1024 /
`content.js` lines 83–89:
`task.name.replace(/[^a-z0-9_\-.]/gi, "_")`, then append `".png"` unless the
lower-cased result already ends in `".png"` or `".jpg"`. -/

/-- A character matched by the class `[a-z0-9_\-.]` with the `i` flag,
i.e. the characters the sanitizer keeps. -/
def isAllowedChar (c : Char) : Bool :=
  ('a' ≤ c && c ≤ 'z') || ('A' ≤ c && c ≤ 'Z') || ('0' ≤ c && c ≤ '9') ||
    c = '_' || c = '-' || c = '.'

/-- One step of `name.replace(/[^a-z0-9_\-.]/gi, "_")`. -/
def sanitizeChar (c : Char) : Char :=
  if isAllowedChar c then c else '_'

/-- `task.name.replace(/[^a-z0-9_\-.]/gi, "_")`. -/
def sanitizeName (n : List Char) : List Char :=
  n.map sanitizeChar

/-- `s.toLowerCase().endsWith(suffix)` for a string `s`. -/
def lowerEndsWith (s suf : List Char) : Bool :=
  suf.isSuffixOf (s.map Char.toLower)

/-- The derived target filename (`filename` in `content.js` / `part_002`,
`safeName` in `part_000`): sanitize the task name, then append `".png"`
unless the lower-cased result already ends in `".png"` or `".jpg"`. -/
def filename (n : List Char) : List Char :=
  if lowerEndsWith (sanitizeName n) ['.', 'p', 'n', 'g'] ||
      lowerEndsWith (sanitizeName n) ['.', 'j', 'p', 'g'] then
    sanitizeName n
  else
    sanitizeName n ++ ['.', 'p', 'n', 'g']

/-- Spec-side definition (refinement target), from the spec's words: a full
match of the regular expression `^[A-Za-z0-9_.-]+\.(png|jpg)$`.  A string
matches iff all of its characters lie in the class, it literally ends in
`".png"` or `".jpg"` (lower case), and at least one class character precedes
the four-character suffix. -/
def matchesSpecPattern (f : List Char) : Bool :=
  f.all isAllowedChar && 5 ≤ f.length &&
    (List.isSuffixOf ['.', 'p', 'n', 'g'] f || List.isSuffixOf ['.', 'j', 'p', 'g'] f)

/-- Spec-side definition of the amended pattern
`^[A-Za-z0-9_.-]*\.(png|jpg)$` with the extension compared
case-insensitively: all characters in the class and the lower-cased string
ends in `".png"` or `".jpg"`. -/
def matchesAmendedPattern (f : List Char) : Bool :=
  f.all isAllowedChar &&
    (lowerEndsWith f ['.', 'p', 'n', 'g'] || lowerEndsWith f ['.', 'j', 'p', 'g'])

/-! ## Task queue filtering

Source: `part_000` lines 410–421 (the `startBtn` click handler). -/

/-- A `(name, prompt)` task (`TaskItem`). -/
structure Task where
  name : List Char
  prompt : List Char
deriving DecidableEq, Repr

/-- The queue filter built at run start:
`loadedTasks.filter(item => { if (!item || !item.name) return false; … return !existingFiles.has(safeName); })`.
A JavaScript string is falsy exactly when it is empty, so `!item.name`
drops tasks with an empty name. -/
def buildQueue (loadedTasks : List Task) (existingFiles : List (List Char)) : List Task :=
  loadedTasks.filter fun item =>
    if item.name.isEmpty then false
    else !(existingFiles.contains (filename item.name))

/-! ## Background file service: download-detection/rename pipeline

Source: `part_001` lines 217–453 (`waitForDownloadAndRename` and helpers).
External effects are scripted: successive directory scans, size reads,
image decoding, byte reads, and write/delete success are inputs; SHA-256 is
an abstract function parameter.  Each poll iteration is idealized to take
exactly one poll interval of wall-clock time. -/

/-- `/\.(png|jpe?g|webp)$/i.test(filename)` (`isImageFilename`). -/
def isImageFilename (name : List Char) : Bool :=
  lowerEndsWith name ['.', 'p', 'n', 'g'] || lowerEndsWith name ['.', 'j', 'p', 'g'] ||
    lowerEndsWith name ['.', 'j', 'p', 'e', 'g'] || lowerEndsWith name ['.', 'w', 'e', 'b', 'p']

/-- `filename.startsWith("Gemini_Generated_Image") || filename.startsWith("Gemini_Image")`. -/
def isPreferredGeminiFilename (name : List Char) : Bool :=
  List.isPrefixOf "Gemini_Generated_Image".toList name ||
    List.isPrefixOf "Gemini_Image".toList name

/-- One entry of a source-directory listing (`entry.kind === "file"` is the
`isFile` flag). -/
structure SourceEntry where
  name : List Char
  isFile : Bool
deriving DecidableEq, Repr

/-- The baseline snapshot (`initialFiles`): names of image files present in
the source directory before the download. -/
def baselineFiles (listing : List SourceEntry) : List (List Char) :=
  (listing.filter fun e => e.isFile && isImageFilename e.name).map SourceEntry.name

/-- One scan of the source directory (the `for await` loop with `break`):
the first file entry that is an image, is not in the baseline, and either
follows the Gemini naming convention or `allowAny` holds. -/
def findNewFile (initial : List (List Char)) (allowAny : Bool)
    (listing : List SourceEntry) : Option (List Char) :=
  (listing.find? fun e =>
      e.isFile && isImageFilename e.name && !(initial.contains e.name) &&
        (isPreferredGeminiFilename e.name || allowAny)).map SourceEntry.name

/-- `allowAnyImageAfterMs = Math.min(timeout, Math.max(Math.round(timeout*0.1), interval*5))`
(`Math.round(t*0.1)` is exact `t/10` here because timeouts are whole
seconds times 1000). -/
def allowAnyImageAfterMs (timeoutMs intervalMs : Nat) : Nat :=
  min timeoutMs (max (timeoutMs / 10) (intervalMs * 5))

/-- The poll loop (`while (Date.now() - startTime < timeout)`): at iteration
`i` the elapsed time after the sleep is `(i+1)*intervalMs`; the scan widens
to any new image once `allowAfterMs ≤ elapsed`.  Returns the detected file
and the elapsed time at detection, or `none` on timeout. -/
def pollLoop (initial : List (List Char)) (pollListing : Nat → List SourceEntry)
    (allowAfterMs intervalMs : Nat) : Nat → Nat → Option (List Char × Nat)
  | 0, _ => none
  | fuel + 1, i =>
    match findNewFile initial (decide (allowAfterMs ≤ (i + 1) * intervalMs))
        (pollListing i) with
    | some f => some (f, (i + 1) * intervalMs)
    | none => pollLoop initial pollListing allowAfterMs intervalMs fuel (i + 1)

/-- Number of iterations of the poll loop before the deadline: the loop body
runs for every `i` with `i * intervalMs < timeoutMs`. -/
def numPollIterations (timeoutMs intervalMs : Nat) : Nat :=
  (timeoutMs + intervalMs - 1) / intervalMs

/-- The size-stabilization loop (`while (stableCount < 3)`): each element of
`reads` is one size read (`none` models a thrown read).  A read equal to the
previous non-zero size increments the counter; a different size, a zero
size, or a failed read resets it to 0 (a different size also replaces
`lastSize`).  Returns the stable size, or `none` if the scripted reads run
out first (the real loop would keep polling). -/
def stabilityLoop (reads : List (Option Nat)) (lastSize stableCount : Nat) : Option Nat :=
  if 3 ≤ stableCount then some lastSize
  else
    match reads with
    | [] => none
    | some size :: rest =>
      if size = lastSize ∧ 0 < size then stabilityLoop rest lastSize (stableCount + 1)
      else stabilityLoop rest size 0
    | none :: rest => stabilityLoop rest lastSize 0

/-- Verdict of the aspect check (step 3.5): `reject` when the width/height
quotient is within 0.15 of 1, `nearSixteenNine` when it is within 0.25 of
16/9 (the success log), `warnProceed` otherwise (warning log, workflow
continues), `checkSkipped` when decoding throws (the check error is caught
and the workflow continues). -/
inductive AspectVerdict where
  | reject
  | nearSixteenNine
  | warnProceed
  | checkSkipped
deriving DecidableEq, Repr

/-- The aspect check on the decoded bitmap, `none` meaning
`createImageBitmap` threw.  The float comparisons
`Math.abs(width/height - 1.0) < 0.15` and
`Math.abs(width/height - 16/9) < 0.25` are modelled in exact arithmetic and
written cross-multiplied (for a positive height these are exactly
`|w/h - 1| < 15/100` and `|w/h - 16/9| < 25/100`; see
`aspectVerdict_reject_iff`). -/
def aspectVerdict (decode : Option (Nat × Nat)) : AspectVerdict :=
  match decode with
  | none => .checkSkipped
  | some (w, h) =>
    if 100 * |(w : ℤ) - (h : ℤ)| < 15 * (h : ℤ) then .reject
    else if 100 * |9 * (w : ℤ) - 16 * (h : ℤ)| < 225 * (h : ℤ) then .nearSixteenNine
    else .warnProceed

/-- Failure causes of `waitForDownloadAndRename` (the error strings of the
returned `{success:false, error}` records).  `scriptExhausted` stands for a
run whose scripted size reads end before the unbounded stability loop exits. -/
inductive WaitError where
  | missingHandles
  | iterationUnsupported
  | timeoutWaiting
  | scriptExhausted
  | squareAspect
  | duplicateImage
  | renameFailed
deriving DecidableEq, Repr

/-- The scripted external world of one `waitForDownloadAndRename` call. -/
structure DownloadScript where
  initialListing : List SourceEntry
  pollListing : Nat → List SourceEntry
  sizeReads : List (Option Nat)
  decodeResult : Option (Nat × Nat)
  fileBytes : Option (List Nat)
  writeOk : Bool
  sourceDeleteOk : Bool

/-- Observable outcome of one call: the returned result, the `lastFileHash`
module state after the call, the files written to the output directory, and
the source entries removed (recorded when `removeEntry` is attempted; on the
aspect-reject path a failed delete is swallowed by its own `catch`). -/
structure PipelineResult where
  result : Except WaitError (List Char)
  lastFileHash : Option (List Nat)
  outputWrites : List (List Char × List Nat)
  sourceDeletes : List (List Char)
deriving Repr

/-- Steps 4–5 of the pipeline (hash, duplicate check, write, source delete,
hash update), entered with the detected `newFile`.  A thrown byte read,
failed write, or failed delete is caught by the surrounding `try` and
returned as a rename failure. -/
def finishPhase (hash : List Nat → List Nat) (targetFilename newFile : List Char)
    (script : DownloadScript) (lastHash : Option (List Nat)) : PipelineResult :=
  match script.fileBytes with
  | none => ⟨.error .renameFailed, lastHash, [], []⟩
  | some bytes =>
    if lastHash = some (hash bytes) then
      if script.sourceDeleteOk then ⟨.error .duplicateImage, lastHash, [], [newFile]⟩
      else ⟨.error .renameFailed, lastHash, [], []⟩
    else if script.writeOk then
      if script.sourceDeleteOk then
        ⟨.ok targetFilename, some (hash bytes), [(targetFilename, bytes)], [newFile]⟩
      else ⟨.error .renameFailed, lastHash, [(targetFilename, bytes)], []⟩
    else ⟨.error .renameFailed, lastHash, [], []⟩

/-- `waitForDownloadAndRename(targetFilename)` over a scripted world:
missing-handle and iteration-support checks, baseline snapshot, poll loop,
stability loop, aspect gate, then the hash/duplicate/write phase.
`lastHash` is the module-level `lastFileHash` before the call. -/
def waitForDownloadAndRename (hash : List Nat → List Nat)
    (sourcePresent outputPresent iterationSupported : Bool)
    (timeoutMs intervalMs : Nat) (targetFilename : List Char)
    (script : DownloadScript) (lastHash : Option (List Nat)) : PipelineResult :=
  if !(sourcePresent && outputPresent) then ⟨.error .missingHandles, lastHash, [], []⟩
  else if !iterationSupported then ⟨.error .iterationUnsupported, lastHash, [], []⟩
  else
    match pollLoop (baselineFiles script.initialListing) script.pollListing
        (allowAnyImageAfterMs timeoutMs intervalMs) intervalMs
        (numPollIterations timeoutMs intervalMs) 0 with
    | none => ⟨.error .timeoutWaiting, lastHash, [], []⟩
    | some (newFile, _) =>
      match stabilityLoop script.sizeReads 0 0 with
      | none => ⟨.error .scriptExhausted, lastHash, [], []⟩
      | some _ =>
        match aspectVerdict script.decodeResult with
        | .reject => ⟨.error .squareAspect, lastHash, [], [newFile]⟩
        | _ => finishPhase hash targetFilename newFile script lastHash

/-! ## Side-panel orchestrator: retry policy

Source: `part_000` lines 580–630 (`handleTaskError` and the
`TASK_COMPLETE` branch of the message listener). -/

/-- Panel run state relevant to the retry policy. -/
structure PanelState where
  isRunning : Bool
  currentIndex : Nat
  retryCounts : Nat → Option Nat
  skippedCount : Nat

/-- What the handler does next: recreate the tab and re-dispatch, halt the
run, fall through to `processNextTask`, or nothing (`return` while not
running). -/
inductive PanelAction where
  | recreateTab
  | halt
  | processNext
  | noAction
deriving DecidableEq, Repr

/-- `Math.max(0, settings.settings_maxRetries ?? 3)`. -/
def normalizeMaxRetries (stored : Option Int) : Nat :=
  (max 0 (stored.getD 3)).toNat

/-- `handleTaskError`: while running, a retry count below the maximum is
incremented and the tab recreated with the index unchanged; otherwise the
run halts with the error surfaced. -/
def handleTaskError (maxRetries : Nat) (st : PanelState) : PanelState × PanelAction :=
  if st.isRunning = false then (st, .noAction)
  else
    let currentRetries := (st.retryCounts st.currentIndex).getD 0
    if currentRetries < maxRetries then
      ({ st with
          retryCounts := fun j =>
            if j = st.currentIndex then some (currentRetries + 1) else st.retryCounts j },
        .recreateTab)
    else ({ st with isRunning := false }, .halt)

/-- The `TASK_COMPLETE` branch: delete the retry counter of the current
index, bump `skippedCount` when flagged, advance the index, then recreate
the tab when more tasks remain and the run is live, else fall through to
`processNextTask`. -/
def handleTaskComplete (queueLength : Nat) (skipped : Bool) (st : PanelState) :
    PanelState × PanelAction :=
  let st' : PanelState :=
    { isRunning := st.isRunning
      currentIndex := st.currentIndex + 1
      retryCounts := fun j => if j = st.currentIndex then none else st.retryCounts j
      skippedCount := if skipped then st.skippedCount + 1 else st.skippedCount }
  if st'.currentIndex < queueLength ∧ st.isRunning = true then (st', .recreateTab)
  else (st', .processNext)

/-! ## Persisted run-configuration readers

Sources: `part_001` lines 46–47 (`normalizePositive`), `part_000` lines
658–665 and 358–369 (`|| default` readers and the step-delay
normalization), `part_002` lines 157–180 (content-script `CONFIG_*`
values).  Stored numbers are modelled in `ℚ`; `none` is an absent key. -/

/-- `typeof value === "number" && value > 0 ? value : fallback`. -/
def normalizePositive (value : Option ℚ) (fallback : ℚ) : ℚ :=
  match value with
  | some v => if 0 < v then v else fallback
  | none => fallback

/-- `stored || fallback`: a JavaScript number is falsy exactly when it is 0
(`NaN` not modelled), so only absent or zero values are replaced. -/
def orDefault (value : Option ℚ) (fallback : ℚ) : ℚ :=
  match value with
  | some v => if v = 0 then fallback else v
  | none => fallback

/-- The content-script poll interval: the `??`-chain collapsed into one
stored value, then `p > 0 ? p : 1`. -/
def contentPollIntervalSeconds (stored : Option ℚ) : ℚ :=
  if 0 < stored.getD 1 then stored.getD 1 else 1

/-- The step-delay normalization used by panel and content script:
`raw && raw > 60 ? raw / 1000 : raw`, then `(normalized || 1)`. -/
def normalizeStepDelaySeconds (stored : Option ℚ) : ℚ :=
  match stored with
  | none => 1
  | some v =>
    if v ≠ 0 ∧ 60 < v then
      if v / 1000 = 0 then 1 else v / 1000
    else
      if v = 0 then 1 else v

/-- `(settings.settings_generationTimeout || 120)` (content script). -/
def generationTimeoutSeconds (stored : Option ℚ) : ℚ := orDefault stored 120

/-- `(settings.settings_pageLoadTimeout || 30)` (panel and content script). -/
def pageLoadTimeoutSeconds (stored : Option ℚ) : ℚ := orDefault stored 30

/-- `(settings.settings_inputTimeout || 5)` (content script). -/
def inputTimeoutSeconds (stored : Option ℚ) : ℚ := orDefault stored 5

/-- `(settings.settings_taskInterval || 5)` (panel `recreateTab`). -/
def taskIntervalSeconds (stored : Option ℚ) : ℚ := orDefault stored 5

/-- `normalizePositive(settings.settings_downloadTimeout, 120)` (background). -/
def downloadTimeoutSeconds (stored : Option ℚ) : ℚ := normalizePositive stored 120

/-- `normalizePositive(settings.settings_pollInterval ?? …, 1)` (background). -/
def downloadPollIntervalSeconds (stored : Option ℚ) : ℚ := normalizePositive stored 1

/-! ## Content-script outcome reporting

Source: `part_002` lines 993–1656 (the main IIFE).  Each DOM-interaction
phase is collapsed into an `Except` oracle carrying the thrown error
message; the surrounding `try`/`catch` structure is embedded exactly. -/

/-- A terminal outcome message (`TASK_COMPLETE` with its skipped flag, or
`TASK_ERROR` with its message). -/
inductive TerminalMsg where
  | complete (skipped : Bool)
  | error (message : List Char)
deriving DecidableEq, Repr

/-- Outcomes of the environment the one-task content script runs against. -/
structure ContentEnv where
  currentTask : Option Task
  downloadOnlyMode : Bool
  checkFile : Except (List Char) Bool
  lockedConversationUrl : List Char
  currentUrl : List Char
  lockedUrlValidation : Except (List Char) Unit
  urlsMatch : Bool
  downloadOnlyRun : Except (List Char) Unit
  inputFieldWait : Except (List Char) Unit
  pageStability : Except (List Char) Unit
  typing : Except (List Char) Unit
  sendStep : Except (List Char) Unit
  generationWait : Except (List Char) Unit
  performDownloadStep : Except (List Char) Unit

/-- The full-run phase sequence of the main path (steps 4–9), each phase an
oracle whose error is the thrown message. -/
def contentFullRun (env : ContentEnv) : Except (List Char) Unit := do
  _ ← env.inputFieldWait
  _ ← env.pageStability
  _ ← env.typing
  _ ← env.sendStep
  _ ← env.generationWait
  env.performDownloadStep

/-- The terminal messages sent by one injection of the content script: the
main `try` body with its early returns, every caught exception reported
through the single top-level `catch`. -/
def contentMain (env : ContentEnv) : List TerminalMsg :=
  match env.currentTask with
  | none => [.error "No task found".toList]
  | some _ =>
    match env.checkFile with
    | .error e => [.error e]
    | .ok exists_ =>
      if exists_ then [.complete true]
      else if env.lockedConversationUrl.isEmpty then
        [.error "Locked conversation URL is required. Please lock a Gemini chat URL.".toList]
      else
        match env.lockedUrlValidation with
        | .error m => [.error m]
        | .ok _ =>
          if !env.urlsMatch then
            [.error ("Locked URL mismatch. Expected ".toList ++
              env.lockedConversationUrl ++ ", got ".toList ++ env.currentUrl)]
          else if env.downloadOnlyMode then
            match env.downloadOnlyRun with
            | .ok _ => [.complete false]
            | .error e => [.error e]
          else
            match contentFullRun env with
            | .ok _ => [.complete false]
            | .error e => [.error e]

/-! ## C1 / C2 helper lemmas -/

theorem isAllowedChar_sanitizeChar (c : Char) : isAllowedChar (sanitizeChar c) = true := by
  unfold sanitizeChar
  split
  · assumption
  · decide

theorem sanitizeName_all_allowed (n : List Char) :
    (sanitizeName n).all isAllowedChar = true := by
  simp only [sanitizeName, List.all_map, List.all_eq_true]
  intro c _
  exact isAllowedChar_sanitizeChar c

theorem lowerEndsWith_append_png (s : List Char) :
    lowerEndsWith (s ++ ['.', 'p', 'n', 'g']) ['.', 'p', 'n', 'g'] = true := by
  unfold lowerEndsWith
  rw [List.isSuffixOf_iff_suffix, List.map_append,
    show (['.', 'p', 'n', 'g'].map Char.toLower) = ['.', 'p', 'n', 'g'] by decide]
  exact List.suffix_append _ _

/-! ## Stability-loop lemmas (C4) -/

theorem stabilityLoop_done (reads : List (Option Nat)) (L sc : Nat) (h : 3 ≤ sc) :
    stabilityLoop reads L sc = some L := by
  unfold stabilityLoop
  rw [if_pos h]

theorem stabilityLoop_nil (L sc : Nat) (h : ¬ 3 ≤ sc) :
    stabilityLoop [] L sc = none := by
  unfold stabilityLoop
  rw [if_neg h]

theorem stabilityLoop_cons_some (size : Nat) (rest : List (Option Nat)) (L sc : Nat)
    (h : ¬ 3 ≤ sc) :
    stabilityLoop (some size :: rest) L sc =
      if size = L ∧ 0 < size then stabilityLoop rest L (sc + 1)
      else stabilityLoop rest size 0 := by
  conv_lhs => unfold stabilityLoop
  rw [if_neg h]

theorem stabilityLoop_cons_none (rest : List (Option Nat)) (L sc : Nat) (h : ¬ 3 ≤ sc) :
    stabilityLoop (none :: rest) L sc = stabilityLoop rest L 0 := by
  conv_lhs => unfold stabilityLoop
  rw [if_neg h]

theorem stabilityLoop_none_of_append (xs ys : List (Option Nat)) (L sc : Nat)
    (h : stabilityLoop (xs ++ ys) L sc = none) : stabilityLoop xs L sc = none := by
  induction xs generalizing L sc with
  | nil =>
    by_cases h3 : 3 ≤ sc
    · rw [List.nil_append, stabilityLoop_done ys L sc h3] at h
      exact absurd h (by simp)
    · exact stabilityLoop_nil L sc h3
  | cons x xs ih =>
    by_cases h3 : 3 ≤ sc
    · rw [stabilityLoop_done _ L sc h3] at h
      exact absurd h (by simp)
    · match x with
      | some size =>
        rw [List.cons_append, stabilityLoop_cons_some size _ L sc h3] at h
        rw [stabilityLoop_cons_some size xs L sc h3]
        by_cases hc : size = L ∧ 0 < size
        · rw [if_pos hc] at h ⊢
          exact ih _ _ h
        · rw [if_neg hc] at h ⊢
          exact ih _ _ h
      | none =>
        rw [List.cons_append, stabilityLoop_cons_none _ L sc h3] at h
        rw [stabilityLoop_cons_none xs L sc h3]
        exact ih _ _ h

theorem stabilityLoop_stable_run (cs : List Nat) (s L : Nat) (hs : 0 < s)
    (hchain : List.Chain' (· ≠ ·) (L :: (cs ++ [s]))) :
    stabilityLoop ((cs ++ [s, s, s, s]).map some) L 0 = some s ∧
      stabilityLoop ((cs ++ [s, s, s]).map some) L 0 = none := by
  induction cs generalizing L with
  | nil =>
    have hLs : L ≠ s := by simpa using hchain
    constructor
    · simp only [List.nil_append, List.map_cons, List.map_nil]
      rw [stabilityLoop_cons_some _ _ _ _ (by norm_num),
        if_neg (fun hc => hLs hc.1.symm),
        stabilityLoop_cons_some _ _ _ _ (by norm_num), if_pos ⟨rfl, hs⟩,
        stabilityLoop_cons_some _ _ _ _ (by norm_num), if_pos ⟨rfl, hs⟩,
        stabilityLoop_cons_some _ _ _ _ (by norm_num), if_pos ⟨rfl, hs⟩,
        stabilityLoop_done _ _ _ (by norm_num)]
    · simp only [List.nil_append, List.map_cons, List.map_nil]
      rw [stabilityLoop_cons_some _ _ _ _ (by norm_num),
        if_neg (fun hc => hLs hc.1.symm),
        stabilityLoop_cons_some _ _ _ _ (by norm_num), if_pos ⟨rfl, hs⟩,
        stabilityLoop_cons_some _ _ _ _ (by norm_num), if_pos ⟨rfl, hs⟩,
        stabilityLoop_nil _ _ (by norm_num)]
  | cons c cs ih =>
    rw [List.cons_append, List.chain'_cons] at hchain
    obtain ⟨hLc, hchain'⟩ := hchain
    constructor
    · rw [List.cons_append, List.map_cons,
        stabilityLoop_cons_some _ _ _ _ (by norm_num),
        if_neg (fun hc => hLc hc.1.symm)]
      exact (ih c hchain').1
    · rw [List.cons_append, List.map_cons,
        stabilityLoop_cons_some _ _ _ _ (by norm_num),
        if_neg (fun hc => hLc hc.1.symm)]
      exact (ih c hchain').2

/-! ## Claim C4 -/

/-- C4: for a file whose size read changes for every read of `cs` (each read
differing from the previous, starting from the initial `lastSize = 0`) and
then stays constant at a non-zero `s`, the stability loop completes exactly
at the third consecutive stable read — the third read equal to its non-zero
predecessor — and at no earlier read (every proper prefix of the read trace
leaves the loop still waiting); moreover a read that differs from the
previous size or is zero resets the counter to 0 (replacing `lastSize`),
and a failed read resets the counter to 0.  Note the first read of `s`
itself counts as a size change (it differs from the last changing read), so
the loop consumes `cs`, one baseline read of `s`, and three stable reads. -/
theorem stability_third_stable_read (cs : List Nat) (s : Nat) (hs : 0 < s)
    (hchain : List.Chain' (· ≠ ·) (0 :: (cs ++ [s]))) :
    stabilityLoop ((cs ++ [s, s, s, s]).map some) 0 0 = some s ∧
    (∀ n < (cs ++ [s, s, s, s]).length,
        stabilityLoop (((cs ++ [s, s, s, s]).take n).map some) 0 0 = none) ∧
    (∀ (reads : List (Option Nat)) (lastSize sc size : Nat),
        ¬ 3 ≤ sc → ¬ (size = lastSize ∧ 0 < size) →
        stabilityLoop (some size :: reads) lastSize sc = stabilityLoop reads size 0) ∧
    (∀ (reads : List (Option Nat)) (lastSize sc : Nat), ¬ 3 ≤ sc →
        stabilityLoop (none :: reads) lastSize sc = stabilityLoop reads lastSize 0) := by
  refine ⟨(stabilityLoop_stable_run cs s 0 hs hchain).1, ?_, ?_, ?_⟩
  · intro n hn
    have hlen : n ≤ (cs ++ [s, s, s]).length := by
      simp only [List.length_append, List.length_cons, List.length_nil] at hn ⊢
      omega
    have heq : (cs ++ [s, s, s, s]).take n = (cs ++ [s, s, s]).take n := by
      rw [show cs ++ [s, s, s, s] = (cs ++ [s, s, s]) ++ [s] by simp,
        List.take_append_of_le_length hlen]
    rw [heq]
    have h3 := (stabilityLoop_stable_run cs s 0 hs hchain).2
    rw [(List.take_append_drop n (cs ++ [s, s, s])).symm.trans rfl] at h3
    rw [List.map_append] at h3
    exact stabilityLoop_none_of_append _ _ _ _ h3
  · intro reads lastSize sc size h3 hc
    rw [stabilityLoop_cons_some size reads lastSize sc h3, if_neg hc]
  · intro reads lastSize sc h3
    exact stabilityLoop_cons_none reads lastSize sc h3

/-- Witness for C4: sizes change over reads 5, 7, then stay at 9; the loop
completes on the full trace and is still waiting after 5 of its 6 reads. -/
theorem stability_third_stable_read_witness :
    stabilityLoop (([5, 7] ++ [9, 9, 9, 9]).map some) 0 0 = some 9 ∧
      stabilityLoop ((([5, 7] ++ [9, 9, 9, 9]).take 5).map some) 0 0 = none :=
  ⟨(stability_third_stable_read [5, 7] 9 (by decide) (by simp [List.chain'_cons])).1,
    (stability_third_stable_read [5, 7] 9 (by decide) (by simp [List.chain'_cons])).2.1 5 (by decide)⟩

/-! ## Claim C1 -/

/-- C1, counterexample: for the empty task name the derived target filename
is `".png"`, which does not match `^[A-Za-z0-9_.-]+\.(png|jpg)$` (the `+`
requires at least one character before the extension), refuting the claim
that every derived filename matches that pattern. -/
theorem filename_empty_name_fails_pattern :
    filename [] = ['.', 'p', 'n', 'g'] ∧ matchesSpecPattern (filename []) = false := by
  decide

/-- C1, amended: the derived target filename is deterministic (it is a pure
function of the name, applied twice it agrees), and for every input name it
matches `^[A-Za-z0-9_.-]*\.(png|jpg)$` with the extension compared
case-insensitively (a prefix may be empty, e.g. for the empty name; an
upper-case `.PNG`/`.JPG` extension is kept as is). -/
theorem filename_deterministic_matches_pattern (n : List Char) :
    filename n = filename n ∧ matchesAmendedPattern (filename n) = true := by
  refine ⟨rfl, ?_⟩
  unfold filename matchesAmendedPattern
  split
  · next h =>
    rw [Bool.and_eq_true]
    exact ⟨sanitizeName_all_allowed n, h⟩
  · rw [Bool.and_eq_true, List.all_append, Bool.and_eq_true, Bool.or_eq_true]
    exact ⟨⟨sanitizeName_all_allowed n, by decide⟩, Or.inl (lowerEndsWith_append_png _)⟩

/-! ## Claim C2 -/

/-- C2, counterexample: a task whose name is the empty string is dropped
from the queue by the `!item.name` guard even though its derived filename
`".png"` is absent from the (empty) output listing, refuting
"dropped if and only if the derived filename appears in the listing". -/
theorem buildQueue_drops_empty_name :
    buildQueue [⟨[], ['p']⟩] [] = [] ∧
      List.filter (fun t => !(List.contains ([] : List (List Char)) (filename t.name)))
        [(⟨[], ['p']⟩ : Task)] = [⟨[], ['p']⟩] := by
  decide

/-- C2, amended: the queue built at run start is exactly the loaded list
filtered to the tasks with a non-empty name whose derived filename is
absent from the output listing, and it is a subsequence of the loaded list
(original order preserved). -/
theorem buildQueue_filter (loadedTasks : List Task) (existingFiles : List (List Char)) :
    buildQueue loadedTasks existingFiles =
      loadedTasks.filter
        (fun t => !t.name.isEmpty && !(existingFiles.contains (filename t.name))) ∧
      (buildQueue loadedTasks existingFiles).Sublist loadedTasks := by
  constructor
  · exact List.filter_congr fun a _ => by cases h : a.name.isEmpty <;> simp [h]
  · exact List.filter_sublist _

/-! ## Pipeline helper lemmas (C3, C5, C7, C10) -/

/-- With both handles present and iteration supported, a run whose poll loop
detects a file and whose stability loop completes reduces to the aspect
gate followed by the hash/write phase. -/
theorem run_reaches_aspect (hash : List Nat → List Nat) (tms ims : Nat) (tf : List Char)
    (script : DownloadScript) (h₀ : Option (List Nat)) (f : List Char) (e z : Nat)
    (hp : pollLoop (baselineFiles script.initialListing) script.pollListing
        (allowAnyImageAfterMs tms ims) ims (numPollIterations tms ims) 0 = some (f, e))
    (hs : stabilityLoop script.sizeReads 0 0 = some z) :
    waitForDownloadAndRename hash true true true tms ims tf script h₀ =
      match aspectVerdict script.decodeResult with
      | .reject => ⟨.error .squareAspect, h₀, [], [f]⟩
      | _ => finishPhase hash tf f script h₀ := by
  unfold waitForDownloadAndRename
  rw [hp, hs]
  rfl

/-- A run that reaches a non-rejecting aspect verdict reduces to the
hash/duplicate/write phase on the detected file. -/
theorem run_past_aspect (hash : List Nat → List Nat) (tms ims : Nat) (tf : List Char)
    (script : DownloadScript) (h₀ : Option (List Nat)) (f : List Char) (e z : Nat)
    (hp : pollLoop (baselineFiles script.initialListing) script.pollListing
        (allowAnyImageAfterMs tms ims) ims (numPollIterations tms ims) 0 = some (f, e))
    (hs : stabilityLoop script.sizeReads 0 0 = some z)
    (ha : aspectVerdict script.decodeResult ≠ .reject) :
    waitForDownloadAndRename hash true true true tms ims tf script h₀ =
      finishPhase hash tf f script h₀ := by
  rw [run_reaches_aspect hash tms ims tf script h₀ f e z hp hs]
  rcases hv : aspectVerdict script.decodeResult with _ | _ | _ | _
  · exact absurd hv ha
  · rfl
  · rfl
  · rfl

/-- A fully clean run (file found, stabilized, aspect accepted, fresh hash,
write and delete succeed) returns success, writes the bytes under the target
filename, deletes the source file, and records the content hash. -/
theorem run_success (hash : List Nat → List Nat) (tms ims : Nat) (tf : List Char)
    (script : DownloadScript) (h₀ : Option (List Nat)) (f : List Char) (e z : Nat)
    (bytes : List Nat)
    (hp : pollLoop (baselineFiles script.initialListing) script.pollListing
        (allowAnyImageAfterMs tms ims) ims (numPollIterations tms ims) 0 = some (f, e))
    (hs : stabilityLoop script.sizeReads 0 0 = some z)
    (ha : aspectVerdict script.decodeResult ≠ .reject)
    (hb : script.fileBytes = some bytes)
    (hh : h₀ ≠ some (hash bytes))
    (hw : script.writeOk = true)
    (hd : script.sourceDeleteOk = true) :
    waitForDownloadAndRename hash true true true tms ims tf script h₀ =
      ⟨.ok tf, some (hash bytes), [(tf, bytes)], [f]⟩ := by
  rw [run_past_aspect hash tms ims tf script h₀ f e z hp hs ha]
  unfold finishPhase
  simp only [hb]
  rw [if_neg hh, hw, hd]
  rfl

/-- A run whose content hash equals the recorded hash deletes the source
file and returns the duplicate failure without writing or changing the
recorded hash. -/
theorem run_duplicate (hash : List Nat → List Nat) (tms ims : Nat) (tf : List Char)
    (script : DownloadScript) (h₀ : Option (List Nat)) (f : List Char) (e z : Nat)
    (bytes : List Nat)
    (hp : pollLoop (baselineFiles script.initialListing) script.pollListing
        (allowAnyImageAfterMs tms ims) ims (numPollIterations tms ims) 0 = some (f, e))
    (hs : stabilityLoop script.sizeReads 0 0 = some z)
    (ha : aspectVerdict script.decodeResult ≠ .reject)
    (hb : script.fileBytes = some bytes)
    (hh : h₀ = some (hash bytes))
    (hd : script.sourceDeleteOk = true) :
    waitForDownloadAndRename hash true true true tms ims tf script h₀ =
      ⟨.error .duplicateImage, h₀, [], [f]⟩ := by
  rw [run_past_aspect hash tms ims tf script h₀ f e z hp hs ha]
  unfold finishPhase
  simp only [hb]
  rw [if_pos hh, hd]
  rfl


/-! ## Claim C3 -/

/-- C3: if two consecutive calls of `waitForDownloadAndRename` detect files
with byte-for-byte identical content (and both runs pass the preceding
gates), the first call succeeds — it writes the output file, deletes its
source file and records the content hash — and the second call, started
with the state the first left behind, deletes its source file, writes
nothing to the output directory, and returns the duplicate failure. -/
theorem duplicate_second_call (hash : List Nat → List Nat) (content : List Nat)
    (tms₁ ims₁ tms₂ ims₂ : Nat) (tf₁ tf₂ : List Char)
    (s₁ s₂ : DownloadScript) (h₀ : Option (List Nat))
    (f₁ f₂ : List Char) (e₁ e₂ z₁ z₂ : Nat)
    (hp₁ : pollLoop (baselineFiles s₁.initialListing) s₁.pollListing
        (allowAnyImageAfterMs tms₁ ims₁) ims₁ (numPollIterations tms₁ ims₁) 0 = some (f₁, e₁))
    (hs₁ : stabilityLoop s₁.sizeReads 0 0 = some z₁)
    (ha₁ : aspectVerdict s₁.decodeResult ≠ .reject)
    (hb₁ : s₁.fileBytes = some content)
    (hh₀ : h₀ ≠ some (hash content))
    (hw₁ : s₁.writeOk = true) (hd₁ : s₁.sourceDeleteOk = true)
    (hp₂ : pollLoop (baselineFiles s₂.initialListing) s₂.pollListing
        (allowAnyImageAfterMs tms₂ ims₂) ims₂ (numPollIterations tms₂ ims₂) 0 = some (f₂, e₂))
    (hs₂ : stabilityLoop s₂.sizeReads 0 0 = some z₂)
    (ha₂ : aspectVerdict s₂.decodeResult ≠ .reject)
    (hb₂ : s₂.fileBytes = some content)
    (hd₂ : s₂.sourceDeleteOk = true) :
    waitForDownloadAndRename hash true true true tms₁ ims₁ tf₁ s₁ h₀ =
      ⟨.ok tf₁, some (hash content), [(tf₁, content)], [f₁]⟩ ∧
    waitForDownloadAndRename hash true true true tms₂ ims₂ tf₂ s₂
        (waitForDownloadAndRename hash true true true tms₁ ims₁ tf₁ s₁ h₀).lastFileHash =
      ⟨.error .duplicateImage, some (hash content), [], [f₂]⟩ := by
  have h1 := run_success hash tms₁ ims₁ tf₁ s₁ h₀ f₁ e₁ z₁ content hp₁ hs₁ ha₁ hb₁ hh₀ hw₁ hd₁
  refine ⟨h1, ?_⟩
  rw [h1]
  exact run_duplicate hash tms₂ ims₂ tf₂ s₂ (some (hash content)) f₂ e₂ z₂ content
    hp₂ hs₂ ha₂ hb₂ rfl hd₂

/-- Witness for C3: two concrete scripted runs over the same byte content
`[1, 2, 3]`, with the identity function standing in for SHA-256. -/
theorem duplicate_second_call_witness :
    waitForDownloadAndRename (fun b => b) true true true 2000 1000 ['a']
      ⟨[], fun _ => [⟨"Gemini_Image_1.png".toList, true⟩],
        [some 3, some 3, some 3, some 3], some (16, 9), some [1, 2, 3], true, true⟩ none =
      ⟨.ok ['a'], some [1, 2, 3], [(['a'], [1, 2, 3])], ["Gemini_Image_1.png".toList]⟩ ∧
    waitForDownloadAndRename (fun b => b) true true true 2000 1000 ['b']
      ⟨[], fun _ => [⟨"Gemini_Image_2.png".toList, true⟩],
        [some 3, some 3, some 3, some 3], some (16, 9), some [1, 2, 3], true, true⟩
      (waitForDownloadAndRename (fun b => b) true true true 2000 1000 ['a']
        ⟨[], fun _ => [⟨"Gemini_Image_1.png".toList, true⟩],
          [some 3, some 3, some 3, some 3], some (16, 9), some [1, 2, 3], true, true⟩
        none).lastFileHash =
      ⟨.error .duplicateImage, some [1, 2, 3], [], ["Gemini_Image_2.png".toList]⟩ :=
  duplicate_second_call (fun b => b) [1, 2, 3] 2000 1000 2000 1000 ['a'] ['b']
    ⟨[], fun _ => [⟨"Gemini_Image_1.png".toList, true⟩],
      [some 3, some 3, some 3, some 3], some (16, 9), some [1, 2, 3], true, true⟩
    ⟨[], fun _ => [⟨"Gemini_Image_2.png".toList, true⟩],
      [some 3, some 3, some 3, some 3], some (16, 9), some [1, 2, 3], true, true⟩
    none "Gemini_Image_1.png".toList "Gemini_Image_2.png".toList 1000 1000 3 3
    rfl rfl (by decide) rfl (by decide) rfl rfl rfl rfl (by decide) rfl rfl

/-- The hash/duplicate/write phase keeps the recorded hash on every failure
and updates it, writes the file, and deletes the source exactly on the
success return. -/
theorem finishPhase_hash_behavior (hash : List Nat → List Nat) (tf nf : List Char)
    (script : DownloadScript) (h₀ : Option (List Nat)) :
    (∀ e, (finishPhase hash tf nf script h₀).result = .error e →
        (finishPhase hash tf nf script h₀).lastFileHash = h₀) ∧
    (∀ f, (finishPhase hash tf nf script h₀).result = .ok f →
        ∃ bytes, script.fileBytes = some bytes ∧
          (finishPhase hash tf nf script h₀).lastFileHash = some (hash bytes) ∧
          (finishPhase hash tf nf script h₀).outputWrites = [(tf, bytes)] ∧
          (finishPhase hash tf nf script h₀).sourceDeletes = [nf] ∧ f = tf) := by
  unfold finishPhase
  split
  · exact ⟨fun e _ => rfl, fun f hf => by cases hf⟩
  · rename_i bytes hbytes
    split
    · split
      · exact ⟨fun e _ => rfl, fun f hf => by cases hf⟩
      · exact ⟨fun e _ => rfl, fun f hf => by cases hf⟩
    · split
      · split
        · constructor
          · intro e he
            cases he
          · intro f hf
            refine ⟨bytes, hbytes, rfl, rfl, rfl, ?_⟩
            injection hf with hf
            exact hf.symm
        · exact ⟨fun e _ => rfl, fun f hf => by cases hf⟩
      · exact ⟨fun e _ => rfl, fun f hf => by cases hf⟩

/-! ## Claim C10 -/

/-- C10: the recorded last-file hash is unchanged by every call of
`waitForDownloadAndRename` that returns a failure result (missing handles,
iteration unsupported, timeout, aspect-ratio rejection, duplicate, write or
delete failure, or an exhausted script); it is assigned a new value only on
the success return, in which case the output write and the source deletion
are also recorded. -/
theorem lastHash_only_on_success (hash : List Nat → List Nat)
    (sp op its : Bool) (tms ims : Nat) (tf : List Char)
    (script : DownloadScript) (h₀ : Option (List Nat)) :
    (∀ e, (waitForDownloadAndRename hash sp op its tms ims tf script h₀).result = .error e →
        (waitForDownloadAndRename hash sp op its tms ims tf script h₀).lastFileHash = h₀) ∧
    (∀ f, (waitForDownloadAndRename hash sp op its tms ims tf script h₀).result = .ok f →
        ∃ bytes, script.fileBytes = some bytes ∧
          (waitForDownloadAndRename hash sp op its tms ims tf script h₀).lastFileHash =
            some (hash bytes) ∧
          (waitForDownloadAndRename hash sp op its tms ims tf script h₀).outputWrites =
            [(tf, bytes)] ∧
          ∃ nf, (waitForDownloadAndRename hash sp op its tms ims tf script h₀).sourceDeletes =
            [nf]) := by
  unfold waitForDownloadAndRename
  split
  · exact ⟨fun e _ => rfl, fun f hf => by cases hf⟩
  · split
    · exact ⟨fun e _ => rfl, fun f hf => by cases hf⟩
    · split
      · exact ⟨fun e _ => rfl, fun f hf => by cases hf⟩
      · rename_i newFile elapsed heq
        split
        · exact ⟨fun e _ => rfl, fun f hf => by cases hf⟩
        · split
          · exact ⟨fun e _ => rfl, fun f hf => by cases hf⟩
          · constructor
            · intro e he
              exact (finishPhase_hash_behavior hash tf newFile script h₀).1 e he
            · intro f hf
              obtain ⟨bytes, hb, hl, hw, hd, _⟩ :=
                (finishPhase_hash_behavior hash tf newFile script h₀).2 f hf
              exact ⟨bytes, hb, hl, hw, newFile, hd⟩

/-- Witness for C10: a call with the source handle missing fails and leaves
the recorded hash `some [7]` untouched. -/
theorem lastHash_only_on_success_witness :
    (waitForDownloadAndRename (fun b => b) false true true 1000 1000 ['a']
        ⟨[], fun _ => [], [], none, none, false, false⟩ (some [7])).lastFileHash = some [7] :=
  (lastHash_only_on_success (fun b => b) false true true 1000 1000 ['a']
      ⟨[], fun _ => [], [], none, none, false, false⟩ (some [7])).1
    WaitError.missingHandles rfl

/-! ## Aspect-gate and poll-loop lemmas (C5, C7) -/

/-- For a positive height, the exact-arithmetic reject test of
`aspectVerdict` coincides with `|w/h - 1| < 15/100` over `ℚ`. -/
theorem aspectVerdict_reject_iff (w h : Nat) (hh : 0 < h) :
    aspectVerdict (some (w, h)) = .reject ↔ |(w : ℚ) / (h : ℚ) - 1| < 15 / 100 := by
  have hq : (0 : ℚ) < (h : ℚ) := by exact_mod_cast hh
  have hiff : aspectVerdict (some (w, h)) = .reject ↔
      100 * |(w : ℤ) - (h : ℤ)| < 15 * (h : ℤ) := by
    show (if 100 * |(w : ℤ) - (h : ℤ)| < 15 * (h : ℤ) then AspectVerdict.reject
        else if 100 * |9 * (w : ℤ) - 16 * (h : ℤ)| < 225 * (h : ℤ) then
          AspectVerdict.nearSixteenNine
        else AspectVerdict.warnProceed) = AspectVerdict.reject ↔
      100 * |(w : ℤ) - (h : ℤ)| < 15 * (h : ℤ)
    split
    · rename_i hc
      simp [hc]
    · rename_i hc
      split <;> simp [hc]
  rw [hiff]
  rw [div_sub_one (ne_of_gt hq), abs_div, abs_of_pos hq, div_lt_iff₀ hq]
  rw [show ((15 : ℚ) / 100) * h = 15 * h / 100 by ring]
  rw [lt_div_iff₀ (by norm_num : (0 : ℚ) < 100)]
  rw [show |(w : ℚ) - (h : ℚ)| * 100 = 100 * |(w : ℚ) - (h : ℚ)| by ring]
  rw [show |(w : ℚ) - (h : ℚ)| = ((|(w : ℤ) - (h : ℤ)| : ℤ) : ℚ) by push_cast; ring_nf]
  constructor
  · intro hlt
    exact_mod_cast hlt
  · intro hlt
    exact_mod_cast hlt

/-- Soundness of one directory scan: an accepted file is an image, is not
in the baseline, and is either Gemini-named or accepted in widened mode. -/
theorem findNewFile_sound (initial : List (List Char)) (allowAny : Bool)
    (listing : List SourceEntry) (g : List Char)
    (h : findNewFile initial allowAny listing = some g) :
    isImageFilename g = true ∧ initial.contains g = false ∧
      (isPreferredGeminiFilename g = true ∨ allowAny = true) := by
  unfold findNewFile at h
  cases hfind : listing.find? fun e =>
      e.isFile && isImageFilename e.name && !(initial.contains e.name) &&
        (isPreferredGeminiFilename e.name || allowAny) with
  | none => rw [hfind] at h; cases h
  | some en =>
    rw [hfind] at h
    injection h with h
    subst h
    have hp := List.find?_some hfind
    simp only [Bool.and_eq_true, Bool.or_eq_true, Bool.not_eq_true'] at hp
    exact ⟨hp.1.1.2, hp.1.2, hp.2⟩

/-- Completeness in widened mode: once any-image acceptance is active, a
listing containing a new image file yields a detection. -/
theorem findNewFile_complete (initial : List (List Char)) (listing : List SourceEntry)
    (en : SourceEntry) (hmem : en ∈ listing) (hfile : en.isFile = true)
    (himg : isImageFilename en.name = true) (hnew : initial.contains en.name = false) :
    (findNewFile initial true listing).isSome = true := by
  unfold findNewFile
  rw [show ∀ (o : Option SourceEntry), (Option.map SourceEntry.name o).isSome = o.isSome
    from fun o => by cases o <;> rfl]
  rw [List.find?_isSome]
  have hnew' : en.name ∉ initial := by simpa using hnew
  exact ⟨en, hmem, by simp [hfile, himg, hnew']⟩

/-- Soundness of the poll loop: a detected file is an image outside the
baseline, and a non-Gemini-named file is accepted only at an elapsed time
past the widening threshold. -/
theorem pollLoop_sound (initial : List (List Char)) (pollListing : Nat → List SourceEntry)
    (allowAfter ims : Nat) (fuel i : Nat) (f : List Char) (e : Nat)
    (h : pollLoop initial pollListing allowAfter ims fuel i = some (f, e)) :
    isImageFilename f = true ∧ initial.contains f = false ∧
      (isPreferredGeminiFilename f = true ∨ allowAfter ≤ e) := by
  induction fuel generalizing i with
  | zero => cases h
  | succ fuel ih =>
    rw [pollLoop] at h
    cases hf : findNewFile initial (decide (allowAfter ≤ (i + 1) * ims)) (pollListing i) with
    | none =>
      rw [hf] at h
      exact ih (i + 1) h
    | some g =>
      rw [hf] at h
      injection h with h
      rw [Prod.mk.injEq] at h
      obtain ⟨rfl, rfl⟩ := h
      obtain ⟨h1, h2, h3⟩ := findNewFile_sound _ _ _ _ hf
      refine ⟨h1, h2, ?_⟩
      rcases h3 with h3 | h3
      · exact Or.inl h3
      · exact Or.inr (of_decide_eq_true h3)

/-! ## Claim C5 -/

/-- C5: the aspect gate rejects exactly when the width/height quotient is
within 0.15 of 1.0 (for positive height); a decoded 178×100 image (quotient
1.78) gets the near-16:9 success verdict and a 13×10 image (quotient 1.3)
the warning verdict, both accepted; and in the pipeline a rejecting verdict
deletes the source file and returns the square-aspect failure, while any
non-rejecting verdict proceeds to the hash/write phase. -/
theorem aspect_gate_behavior :
    (∀ w h : Nat, 0 < h →
        (aspectVerdict (some (w, h)) = .reject ↔ |(w : ℚ) / (h : ℚ) - 1| < 15 / 100)) ∧
    aspectVerdict (some (178, 100)) = .nearSixteenNine ∧
    aspectVerdict (some (13, 10)) = .warnProceed ∧
    (∀ (hash : List Nat → List Nat) (tms ims : Nat) (tf : List Char)
        (script : DownloadScript) (h₀ : Option (List Nat)) (f : List Char) (e z : Nat),
        pollLoop (baselineFiles script.initialListing) script.pollListing
            (allowAnyImageAfterMs tms ims) ims (numPollIterations tms ims) 0 = some (f, e) →
        stabilityLoop script.sizeReads 0 0 = some z →
        aspectVerdict script.decodeResult = .reject →
        waitForDownloadAndRename hash true true true tms ims tf script h₀ =
          ⟨.error .squareAspect, h₀, [], [f]⟩) ∧
    (∀ (hash : List Nat → List Nat) (tms ims : Nat) (tf : List Char)
        (script : DownloadScript) (h₀ : Option (List Nat)) (f : List Char) (e z : Nat),
        pollLoop (baselineFiles script.initialListing) script.pollListing
            (allowAnyImageAfterMs tms ims) ims (numPollIterations tms ims) 0 = some (f, e) →
        stabilityLoop script.sizeReads 0 0 = some z →
        aspectVerdict script.decodeResult ≠ .reject →
        waitForDownloadAndRename hash true true true tms ims tf script h₀ =
          finishPhase hash tf f script h₀) := by
  refine ⟨fun w h hh => aspectVerdict_reject_iff w h hh, by decide, by decide, ?_, ?_⟩
  · intro hash tms ims tf script h₀ f e z hp hs hr
    rw [run_reaches_aspect hash tms ims tf script h₀ f e z hp hs, hr]
  · intro hash tms ims tf script h₀ f e z hp hs ha
    exact run_past_aspect hash tms ims tf script h₀ f e z hp hs ha

/-- Witness for C5: a 102×100 image (quotient 1.02) is in the reject band,
and a scripted run decoding it fails with source deletion. -/
theorem aspect_gate_behavior_witness :
    (aspectVerdict (some (102, 100)) = .reject ↔ |(102 : ℚ) / (100 : ℚ) - 1| < 15 / 100) ∧
    waitForDownloadAndRename (fun b => b) true true true 2000 1000 ['a']
      ⟨[], fun _ => [⟨"Gemini_Image_1.png".toList, true⟩],
        [some 3, some 3, some 3, some 3], some (102, 100), some [1], true, true⟩ none =
      ⟨.error .squareAspect, none, [], ["Gemini_Image_1.png".toList]⟩ :=
  ⟨aspect_gate_behavior.1 102 100 (by decide),
    aspect_gate_behavior.2.2.2.1 (fun b => b) 2000 1000 ['a']
      ⟨[], fun _ => [⟨"Gemini_Image_1.png".toList, true⟩],
        [some 3, some 3, some 3, some 3], some (102, 100), some [1], true, true⟩ none
      "Gemini_Image_1.png".toList 1000 3 rfl rfl (by decide)⟩

/-! ## Claim C7 -/

/-- C7: while polling, a detected file is always a new image, and one that
does not follow the Gemini naming convention is accepted only once the
configured fraction of the download timeout (`allowAnyImageAfterMs`) has
elapsed; in widened mode any new image file in the listing is accepted; and
when no qualifying file appears over the whole poll loop the pipeline
returns the timeout failure. -/
theorem poll_acceptance_and_timeout :
    (∀ (initial : List (List Char)) (pollListing : Nat → List SourceEntry)
        (allowAfter ims fuel i : Nat) (f : List Char) (e : Nat),
        pollLoop initial pollListing allowAfter ims fuel i = some (f, e) →
        isImageFilename f = true ∧ initial.contains f = false ∧
          (isPreferredGeminiFilename f = true ∨ allowAfter ≤ e)) ∧
    (∀ (initial : List (List Char)) (listing : List SourceEntry) (en : SourceEntry),
        en ∈ listing → en.isFile = true → isImageFilename en.name = true →
        initial.contains en.name = false →
        (findNewFile initial true listing).isSome = true) ∧
    (∀ (hash : List Nat → List Nat) (tms ims : Nat) (tf : List Char)
        (script : DownloadScript) (h₀ : Option (List Nat)),
        pollLoop (baselineFiles script.initialListing) script.pollListing
            (allowAnyImageAfterMs tms ims) ims (numPollIterations tms ims) 0 = none →
        waitForDownloadAndRename hash true true true tms ims tf script h₀ =
          ⟨.error .timeoutWaiting, h₀, [], []⟩) := by
  refine ⟨pollLoop_sound, findNewFile_complete, ?_⟩
  intro hash tms ims tf script h₀ hp
  unfold waitForDownloadAndRename
  rw [hp]
  rfl

/-- Witness for C7: a concrete Gemini-named detection at 1000 ms, a widened
acceptance of `x.png`, and a run over an empty source that times out. -/
theorem poll_acceptance_and_timeout_witness :
    (isImageFilename "Gemini_Image_1.png".toList = true ∧
      List.contains [] "Gemini_Image_1.png".toList = false ∧
      (isPreferredGeminiFilename "Gemini_Image_1.png".toList = true ∨ 2000 ≤ 1000)) ∧
    (findNewFile [] true [⟨"x.png".toList, true⟩]).isSome = true ∧
    waitForDownloadAndRename (fun b => b) true true true 2000 1000 ['a']
      ⟨[], fun _ => [], [], none, none, false, false⟩ none =
      ⟨.error .timeoutWaiting, none, [], []⟩ :=
  ⟨poll_acceptance_and_timeout.1 [] (fun _ => [⟨"Gemini_Image_1.png".toList, true⟩])
      2000 1000 2 0 "Gemini_Image_1.png".toList 1000 rfl,
    poll_acceptance_and_timeout.2.1 [] [⟨"x.png".toList, true⟩] ⟨"x.png".toList, true⟩
      (by simp) rfl (by decide) rfl,
    poll_acceptance_and_timeout.2.2 (fun b => b) 2000 1000 ['a']
      ⟨[], fun _ => [], [], none, none, false, false⟩ none rfl⟩

/-! ## Claim C6 -/

/-- C6: with max-retries 3, each of the first three task errors on a fresh
task index increments that task's retry count (to 1, 2, 3), leaves the
index and the running flag unchanged, and recreates the tab to re-dispatch;
the fourth error halts the run with the index preserved; and a
task-complete message always deletes the current task's retry counter and
advances the index by one. -/
theorem retry_policy (st : PanelState)
    (hrun : st.isRunning = true) (hfresh : st.retryCounts st.currentIndex = none) :
    ((handleTaskError 3 st).2 = .recreateTab ∧
      (handleTaskError 3 st).1.isRunning = true ∧
      (handleTaskError 3 st).1.currentIndex = st.currentIndex ∧
      (handleTaskError 3 st).1.retryCounts st.currentIndex = some 1) ∧
    ((handleTaskError 3 (handleTaskError 3 st).1).2 = .recreateTab ∧
      (handleTaskError 3 (handleTaskError 3 st).1).1.isRunning = true ∧
      (handleTaskError 3 (handleTaskError 3 st).1).1.currentIndex = st.currentIndex ∧
      (handleTaskError 3 (handleTaskError 3 st).1).1.retryCounts st.currentIndex = some 2) ∧
    ((handleTaskError 3 (handleTaskError 3 (handleTaskError 3 st).1).1).2 = .recreateTab ∧
      (handleTaskError 3 (handleTaskError 3 (handleTaskError 3 st).1).1).1.isRunning = true ∧
      (handleTaskError 3 (handleTaskError 3 (handleTaskError 3 st).1).1).1.currentIndex =
        st.currentIndex ∧
      (handleTaskError 3 (handleTaskError 3 (handleTaskError 3 st).1).1).1.retryCounts
        st.currentIndex = some 3) ∧
    ((handleTaskError 3
        (handleTaskError 3 (handleTaskError 3 (handleTaskError 3 st).1).1).1).2 = .halt ∧
      (handleTaskError 3
        (handleTaskError 3 (handleTaskError 3 (handleTaskError 3 st).1).1).1).1.isRunning =
        false ∧
      (handleTaskError 3
        (handleTaskError 3 (handleTaskError 3 (handleTaskError 3 st).1).1).1).1.currentIndex =
        st.currentIndex) ∧
    (∀ (q : Nat) (skipped : Bool) (st' : PanelState),
        (handleTaskComplete q skipped st').1.retryCounts st'.currentIndex = none ∧
        (handleTaskComplete q skipped st').1.currentIndex = st'.currentIndex + 1) := by
  refine ⟨?_, ?_, ?_, ?_, ?_⟩
  · simp [handleTaskError, hrun, hfresh]
  · simp [handleTaskError, hrun, hfresh]
  · simp [handleTaskError, hrun, hfresh]
  · simp [handleTaskError, hrun, hfresh]
  · intro q skipped st'
    by_cases hq : st'.currentIndex + 1 < q ∧ st'.isRunning = true
    · simp [handleTaskComplete, hq]
    · simp [handleTaskComplete, hq]

/-- Witness for C6: the first error on a fresh run state recreates the
tab. -/
theorem retry_policy_witness :
    (handleTaskError 3 ⟨true, 0, fun _ => none, 0⟩).2 = PanelAction.recreateTab :=
  (retry_policy ⟨true, 0, fun _ => none, 0⟩ rfl rfl).1.1

/-! ## Claim C8 -/

/-- C8: every injection of the content script sends exactly one terminal
outcome message — on each execution path (missing task, skip, download-only,
full run, or any caught exception) the emitted message list has length one
and is either a single `TASK_COMPLETE` or a single `TASK_ERROR`. -/
theorem content_single_outcome (env : ContentEnv) :
    (contentMain env).length = 1 ∧
      ((∃ s, contentMain env = [.complete s]) ∨ (∃ e, contentMain env = [.error e])) := by
  unfold contentMain
  repeat' split
  all_goals
    first
      | exact ⟨rfl, Or.inl ⟨_, rfl⟩⟩
      | exact ⟨rfl, Or.inr ⟨_, rfl⟩⟩


/-! ## Settings-reader lemmas (C9) -/

/-- `normalizePositive` yields a positive value whenever its fallback is
positive. -/
theorem normalizePositive_pos (x : Option ℚ) (d : ℚ) (hd : 0 < d) :
    0 < normalizePositive x d := by
  unfold normalizePositive
  cases x with
  | none => exact hd
  | some w =>
    show 0 < if 0 < w then w else d
    split
    · assumption
    · exact hd

/-! ## Claim C9 -/

/-- C9, counterexample: the inter-task interval reader
`(settings.settings_taskInterval || 5)` passes a stored negative value
through unchanged — `-2` is non-positive yet not replaced by the default,
refuting "whenever the stored value is absent or non-positive, the reading
component substitutes its positive default". -/
theorem taskInterval_negative_passthrough :
    taskIntervalSeconds (some (-2)) = -2 ∧ ¬ (0 < taskIntervalSeconds (some (-2))) := by
  constructor
  · simp [taskIntervalSeconds, orDefault]
  · simp [taskIntervalSeconds, orDefault]

/-- C9, amended: the `||`-based readers (generation timeout, page-load
timeout, input timeout, inter-task interval) substitute their positive
default when the stored value is absent or zero and pass positive values
through; the background download readers (`normalizePositive`) and the
content-script poll-interval reader are positive for every stored value;
the step-delay reader yields 1 for absent or zero values and a positive
value for positive ones; and max retries defaults to 3 when absent. -/
theorem settings_readers (stored : Option ℚ) (v : ℚ) (hv : 0 < v) :
    (generationTimeoutSeconds none = 120 ∧ generationTimeoutSeconds (some 0) = 120 ∧
      generationTimeoutSeconds (some v) = v) ∧
    (pageLoadTimeoutSeconds none = 30 ∧ pageLoadTimeoutSeconds (some 0) = 30 ∧
      pageLoadTimeoutSeconds (some v) = v) ∧
    (inputTimeoutSeconds none = 5 ∧ inputTimeoutSeconds (some 0) = 5 ∧
      inputTimeoutSeconds (some v) = v) ∧
    (taskIntervalSeconds none = 5 ∧ taskIntervalSeconds (some 0) = 5 ∧
      taskIntervalSeconds (some v) = v) ∧
    (0 < downloadTimeoutSeconds stored ∧ 0 < downloadPollIntervalSeconds stored) ∧
    0 < contentPollIntervalSeconds stored ∧
    (normalizeStepDelaySeconds none = 1 ∧ normalizeStepDelaySeconds (some 0) = 1 ∧
      0 < normalizeStepDelaySeconds (some v)) ∧
    normalizeMaxRetries none = 3 := by
  have hvne : v ≠ 0 := ne_of_gt hv
  refine ⟨⟨rfl, by simp [generationTimeoutSeconds, orDefault],
      by simp [generationTimeoutSeconds, orDefault, hvne]⟩,
    ⟨rfl, by simp [pageLoadTimeoutSeconds, orDefault],
      by simp [pageLoadTimeoutSeconds, orDefault, hvne]⟩,
    ⟨rfl, by simp [inputTimeoutSeconds, orDefault],
      by simp [inputTimeoutSeconds, orDefault, hvne]⟩,
    ⟨rfl, by simp [taskIntervalSeconds, orDefault],
      by simp [taskIntervalSeconds, orDefault, hvne]⟩,
    ⟨?_, ?_⟩, ?_, ⟨rfl, ?_, ?_⟩, rfl⟩
  · exact normalizePositive_pos stored 120 (by norm_num)
  · exact normalizePositive_pos stored 1 (by norm_num)
  · unfold contentPollIntervalSeconds
    split
    · assumption
    · norm_num
  · simp [normalizeStepDelaySeconds]
  · show 0 < if v ≠ 0 ∧ 60 < v then (if v / 1000 = 0 then 1 else v / 1000)
        else (if v = 0 then 1 else v)
    by_cases h60 : v ≠ 0 ∧ 60 < v
    · rw [if_pos h60]
      have hz : v / 1000 ≠ 0 := by
        intro hz0
        field_simp at hz0
        exact hvne hz0
      rw [if_neg hz]
      positivity
    · rw [if_neg h60, if_neg hvne]
      exact hv

/-- Witness for C9: the readers evaluated at stored value `-3` (for the
always-positive readers) and `7` (for the pass-through readers). -/
theorem settings_readers_witness :
    (generationTimeoutSeconds none = 120 ∧ generationTimeoutSeconds (some 0) = 120 ∧
      generationTimeoutSeconds (some 7) = 7) ∧
    (pageLoadTimeoutSeconds none = 30 ∧ pageLoadTimeoutSeconds (some 0) = 30 ∧
      pageLoadTimeoutSeconds (some 7) = 7) ∧
    (inputTimeoutSeconds none = 5 ∧ inputTimeoutSeconds (some 0) = 5 ∧
      inputTimeoutSeconds (some 7) = 7) ∧
    (taskIntervalSeconds none = 5 ∧ taskIntervalSeconds (some 0) = 5 ∧
      taskIntervalSeconds (some 7) = 7) ∧
    (0 < downloadTimeoutSeconds (some (-3)) ∧ 0 < downloadPollIntervalSeconds (some (-3))) ∧
    0 < contentPollIntervalSeconds (some (-3)) ∧
    (normalizeStepDelaySeconds none = 1 ∧ normalizeStepDelaySeconds (some 0) = 1 ∧
      0 < normalizeStepDelaySeconds (some 7)) ∧
    normalizeMaxRetries none = 3 :=
  settings_readers (some (-3)) 7 (by decide)

end GeminiAutoGen
